import Mathlib

set_option maxHeartbeats 1000000

/-!
Shallow embedding of `src/main.py` of the plugin `astrbot_plugin_proactive_chat`
(version 0.9.7): the proactive session controller.

Modelling conventions:
* Timestamps (Python `time.time()`) and intervals are modelled as `Int`
  (seconds since the epoch); the code only ever adds integer intervals to
  them and compares them.
* Python dicts keyed by session identifier (the in-memory `session_data`
  and the scheduler's job table) are modelled as association lists with the
  dict operations (`get`, `setdefault`, item assignment, APScheduler's
  `add_job` with `replace_existing=True`).
* The data file is modelled as `Option (Option SessionData)`: `none` means
  the file does not exist, `some none` means it exists but is not parseable
  JSON, `some (some d)` means it parses to the mapping `d`.
* Host services (LLM provider, persona store, TTS provider, message
  transport, clock, random source) are oracles packaged in an environment
  record that a single firing of `check_and_chat` consumes.
* `random.randint lo hi` is modelled by `randint lo hi seed`, which for any
  seed returns a value in `[lo, hi]` when `lo ≤ hi`.
-/

/-- One session's persisted record. Python stores these as dicts whose keys
may be absent, so every field is an `Option`; `get(k, 0)` becomes `getD 0`. -/
structure SessionInfo where
  unanswered_count : Option Int := none
  last_msg_time : Option Int := none
  next_trigger_time : Option Int := none
deriving Repr, DecidableEq

/-- The in-memory `session_data` dict: session identifier to session record. -/
abbrev SessionData := List (String × SessionInfo)

/-- Dict read: first binding of the key, as Python dict lookup. -/
def getSessionInfo : SessionData → String → Option SessionInfo
  | [], _ => none
  | (k, v) :: rest, sid => if k = sid then some v else getSessionInfo rest sid

/-- Dict write: replace the first binding of the key, or append a new one. -/
def setSessionInfo : SessionData → String → SessionInfo → SessionData
  | [], sid, v => [(sid, v)]
  | (k, w) :: rest, sid, v =>
    if k = sid then (k, v) :: rest else (k, w) :: setSessionInfo rest sid v

/-- Python's `d.setdefault(sid, {})` followed by a field assignment:
read the current record (or the empty one), transform it, store it back. -/
def updateSessionInfo (d : SessionData) (sid : String) (f : SessionInfo → SessionInfo) :
    SessionData :=
  setSessionInfo d sid (f ((getSessionInfo d sid).getD {}))

/-- An APScheduler date job as this plugin creates it: an absolute run date
and the misfire grace window, keyed (in `Jobs`) by the session identifier. -/
structure Job where
  run_date : Int
  misfire_grace_time : Int
deriving Repr, DecidableEq

/-- The scheduler's job table: job id (= session identifier) to job. -/
abbrev Jobs := List (String × Job)

/-- Job-table read by job id. -/
def lookupJob : Jobs → String → Option Job
  | [], _ => none
  | (k, j) :: rest, sid => if k = sid then some j else lookupJob rest sid

/-- APScheduler `add_job` with `replace_existing=True` and `id=sid`: any
job under the same id is dropped and the new job is stored. -/
def add_job (js : Jobs) (sid : String) (j : Job) : Jobs :=
  js.filter (fun p => p.1 != sid) ++ [(sid, j)]

/-- State of the JSON data file: missing, unparseable, or parsed content. -/
abbrev FileState := Option (Option SessionData)

/-- Embedding of `load_session_data_from_file`: a missing file or a file
that fails to parse yields the empty dict; otherwise the parsed dict. -/
def load_session_data_from_file : FileState → SessionData
  | none => []
  | some none => []
  | some (some d) => d

/-- Embedding of `save_session_data_to_file`: the write may fail (the
Python code catches every exception and only logs); `writeOk = false`
leaves the file as it was, `writeOk = true` stores the serialized dict. -/
def save_session_data_to_file (writeOk : Bool) (data : SessionData) (fs : FileState) :
    FileState :=
  if writeOk then some (some data) else fs

/-- Python's `s.split(c)` for a one-character separator: the pieces between
occurrences of the separator, in order, keeping empty pieces. -/
def splitOnChar (c : Char) : List Char → List (List Char)
  | [] => [[]]
  | x :: xs =>
    match splitOnChar c xs with
    | [] => [[x]]
    | h :: t => if x == c then [] :: h :: t else (x :: h) :: t

/-- Leading and trailing whitespace removed, Python's `str.strip()`. -/
def trimChars (l : List Char) : List Char :=
  ((l.dropWhile (fun c => c.isWhitespace)).reverse.dropWhile
    (fun c => c.isWhitespace)).reverse

/-- Python's `str.strip()` at the string level. -/
def pyStrip (s : String) : String :=
  ⟨trimChars s.data⟩

/-- Decimal value of a digit list, accumulator style. -/
def digitsToNatAux : Nat → List Char → Nat
  | acc, [] => acc
  | acc, c :: cs => digitsToNatAux (acc * 10 + (c.toNat - 48)) cs

/-- Parse a non-empty all-digit character list as a natural number. -/
def parseNatChars (l : List Char) : Option Nat :=
  if l.isEmpty then none
  else if l.all (fun c => c.isDigit) then some (digitsToNatAux 0 l)
  else none

/-- Python `int(s)` on a string: optional surrounding whitespace, optional
sign, then decimal digits; anything else raises (here: `none`). -/
def pyInt (s : String) : Option Int :=
  match trimChars s.data with
  | [] => none
  | c :: rest =>
    if c == '-' then (parseNatChars rest).map (fun n => -(n : Int))
    else if c == '+' then (parseNatChars rest).map (fun n => (n : Int))
    else (parseNatChars (c :: rest)).map (fun n => (n : Int))

/-- Embedding of `is_quiet_time`. The current hour in the configured time
zone (local time when the zone is absent or invalid) is passed in as
`hour`. Python's tuple unpacking of the split raises unless the split
yields exactly two parts, and `int` raises on non-numeric parts; the
surrounding `try` turns every such failure into `False`. -/
def is_quiet_time (quiet_hours_str : String) (hour : Nat) : Bool :=
  match (splitOnChar '-' quiet_hours_str.data).map (fun cs => String.mk cs) with
  | [start_str, end_str] =>
    match pyInt start_str, pyInt end_str with
    | some start_hour, some end_hour =>
      if start_hour ≤ end_hour then
        decide (start_hour ≤ (hour : Int) ∧ (hour : Int) < end_hour)
      else
        decide ((hour : Int) ≥ start_hour ∨ (hour : Int) < end_hour)
    | _, _ => false
  | _ => false

/-- Model of `random.randint lo hi`: for `lo ≤ hi` the result lies in
`[lo, hi]`, with the draw determined by the seed. -/
def randint (lo hi : Int) (seed : Nat) : Int :=
  lo + (seed : Int) % (hi - lo + 1)

/-- The `basic_settings` config group, with the `.get` defaults of the code. -/
structure BasicSettings where
  enable : Bool := false
  target_user_id : String := ""
deriving Repr, DecidableEq

/-- The `schedule_settings` config group, with the `.get` defaults of the code. -/
structure ScheduleSettings where
  min_interval_minutes : Int := 30
  max_interval_minutes : Int := 900
  quiet_hours : String := "1-7"
deriving Repr, DecidableEq

/-- The `tts_settings` config group, with the `.get` defaults of the code. -/
structure TtsSettings where
  always_send_text : Bool := true
deriving Repr, DecidableEq

/-- The plugin configuration (grouped shape of version 0.9.7). -/
structure Config where
  basic_settings : BasicSettings := {}
  schedule_settings : ScheduleSettings := {}
  tts_settings : TtsSettings := {}
deriving Repr, DecidableEq

/-- The plugin state a firing or an inbound message can touch: the
in-memory `session_data`, the scheduler's job table, and the data file. -/
structure PState where
  session_data : SessionData := []
  jobs : Jobs := []
  file : FileState := none
deriving Repr, DecidableEq

/-- The `unanswered_count` field currently stored for a session (`none`
when the session or the field is absent). -/
def ucOpt (st : PState) (sid : String) : Option Int :=
  ((getSessionInfo st.session_data sid).getD {}).unanswered_count

/-- The lower interval bound of `_schedule_next_chat`, in seconds. -/
def min_interval (cfg : Config) : Int :=
  cfg.schedule_settings.min_interval_minutes * 60

/-- The upper interval bound of `_schedule_next_chat`, in seconds, clamped
up to the lower bound exactly as the code does with `max`. -/
def max_interval (cfg : Config) : Int :=
  max (min_interval cfg) (cfg.schedule_settings.max_interval_minutes * 60)

/-- The random interval `_schedule_next_chat` draws. -/
def random_interval (cfg : Config) (seed : Nat) : Int :=
  randint (min_interval cfg) (max_interval cfg) seed

/-- Embedding of `_schedule_next_chat`: convert the configured bounds from
minutes to seconds, clamp the max up to the min, draw a random interval,
register the job under the session id (replacing any existing one), store
the new trigger time in `session_data` and persist. -/
def schedule_next_chat (cfg : Config) (now : Int) (seed : Nat) (writeOk : Bool)
    (sid : String) (st : PState) : PState :=
  let next_trigger_time := now + random_interval cfg seed
  let jobs := add_job st.jobs sid
    { run_date := next_trigger_time, misfire_grace_time := 60 }
  let data := updateSessionInfo st.session_data sid
    (fun s => { s with next_trigger_time := some next_trigger_time })
  { session_data := data, jobs := jobs
    file := save_session_data_to_file writeOk data st.file }

/-- Embedding of `on_private_message`: ignore the event when the plugin is
disabled, the (stripped) target user id is empty, or the sender is not the
target; otherwise reset `unanswered_count` to 0, record the inbound time,
and schedule the next proactive chat (replacing the session's job). -/
def on_private_message (cfg : Config) (sender_id : String) (umo : String)
    (now : Int) (seed : Nat) (writeOk : Bool) (st : PState) : PState :=
  if !cfg.basic_settings.enable then st
  else
    let target_user_id := pyStrip cfg.basic_settings.target_user_id
    if target_user_id = "" || sender_id != target_user_id then st
    else
      let d1 := updateSessionInfo st.session_data umo
        (fun s => { s with unanswered_count := some 0 })
      let d2 := updateSessionInfo d1 umo
        (fun s => { s with last_msg_time := some now })
      schedule_next_chat cfg now seed writeOk umo { st with session_data := d2 }

/-- Character-list version of `String.startsWith`. -/
def charsStartWith : List Char → List Char → Bool
  | _, [] => true
  | [], _ :: _ => false
  | a :: as, b :: bs => a == b && charsStartWith as bs

/-- Does the needle occur contiguously somewhere in the hay? -/
def charsContain (hay needle : List Char) : Bool :=
  match hay with
  | [] => needle.isEmpty
  | _ :: rest => charsStartWith hay needle || charsContain rest needle

/-- Substring containment, Python's `needle in hay` on strings. -/
def strContains (hay needle : String) : Bool :=
  charsContain hay.data needle.data

/-- Loop body of `_init_jobs_from_data` over the persisted sessions: a
session whose identifier contains the marker `:target` and the word
`private`, and whose stored trigger time is still in the future, gets its
job re-registered at that time with a 60-second misfire grace window. -/
def init_jobs_aux (target : String) (now : Int) : SessionData → Jobs → Jobs
  | [], js => js
  | (sid, info) :: rest, js =>
    let js2 :=
      if strContains sid (":" ++ target) && strContains sid "private" then
        let next_trigger := info.next_trigger_time.getD 0
        if now < next_trigger then
          add_job js sid { run_date := next_trigger, misfire_grace_time := 60 }
        else js
      else js
    init_jobs_aux target now rest js2

/-- Embedding of `_init_jobs_from_data`: with an empty (stripped) target
user id nothing is restored; otherwise every matching persisted session
with a future trigger time is re-registered. -/
def init_jobs_from_data (cfg : Config) (now : Int) (st : PState) : Jobs :=
  let target_user_id := pyStrip cfg.basic_settings.target_user_id
  if target_user_id = "" then st.jobs
  else init_jobs_aux target_user_id now st.session_data st.jobs

/-- A message segment the firing can send: a voice record or plain text. -/
inductive SentMsg where
  | record (file : String)
  | plain (text : String)
deriving Repr, DecidableEq

/-- Oracle environment for one firing of `check_and_chat`: the clock, the
current hour in the configured time zone, the random source, whether the
file write succeeds, and the outcomes of every host call the firing makes.
`ctx_fails` means the conversation/persona retrieval raised before any
system prompt was obtained (the inner `try` catches it and the firing
continues with an empty prompt and empty history). `llm_completion` is
`some text` when `provider.text_chat` returned an object with a truthy
`completion_text`, and `none` when the call raised, returned a falsy
object, or returned an empty completion. `tts_audio_path` is the truthy
audio path when a TTS provider was found and produced audio;
`tts_flow_fails` means the TTS flow raised before the voice message was
sent (caught and logged). `text_send_fails` means sending the text message
raised (this escapes to the outer handler). -/
structure FireEnv where
  now : Int
  hour : Nat
  seed : Nat
  writeOk : Bool
  provider_available : Bool
  ctx_fails : Bool
  conv_history : List String
  conv_persona_prompt : Option String
  default_persona_prompt : Option String
  llm_completion : Option String
  tts_audio_path : Option String
  tts_flow_fails : Bool
  text_send_fails : Bool
deriving Repr, DecidableEq

/-- Embedding of the persona/history block of `check_and_chat`: prefer the
persona bound to the session's current conversation, fall back to the
global default persona; a retrieval failure is caught and leaves both the
system prompt and the history empty. -/
def resolve_persona_and_history (env : FireEnv) : String × List String :=
  if env.ctx_fails then ("", [])
  else
    let bound := env.conv_persona_prompt.getD ""
    let original_system_prompt :=
      if bound = "" then env.default_persona_prompt.getD "" else bound
    (original_system_prompt, env.conv_history)

/-- Did the TTS flow of `check_and_chat` deliver a voice message: a TTS
provider produced a truthy audio path and nothing in the flow raised
before the voice send completed. -/
def is_tts_sent (env : FireEnv) : Bool :=
  env.tts_audio_path.isSome && !env.tts_flow_fails

/-- The `finally` clause's condition for sending the plain-text message:
no voice message went out, or `always_send_text` is configured. -/
def need_text (cfg : Config) (env : FireEnv) : Bool :=
  ! is_tts_sent env || cfg.tts_settings.always_send_text

/-- The voice segments the TTS flow sends: one record when it succeeds. -/
def voice_msgs (env : FireEnv) : List SentMsg :=
  match env.tts_audio_path with
  | some p => if env.tts_flow_fails then [] else [SentMsg.record p]
  | none => []

/-- Embedding of `check_and_chat`, returning the new plugin state and the
list of message segments sent. Paths, in the code's order: gated off
(disabled or quiet hours) reschedules; no LLM provider reschedules; no
resolvable persona returns with no reschedule; a failed or empty LLM call
reschedules; a successful completion sends voice and/or text, increments
`unanswered_count` by one over the value read at the start, and
reschedules; an exception while sending the text escapes to the outer
handler, which reschedules without incrementing. -/
def check_and_chat (cfg : Config) (env : FireEnv) (sid : String) (st : PState) :
    PState × List SentMsg :=
  if !cfg.basic_settings.enable
      || is_quiet_time cfg.schedule_settings.quiet_hours env.hour then
    (schedule_next_chat cfg env.now env.seed env.writeOk sid st, [])
  else
    let unanswered_count := (ucOpt st sid).getD 0
    if !env.provider_available then
      (schedule_next_chat cfg env.now env.seed env.writeOk sid st, [])
    else
      let pr := resolve_persona_and_history env
      if pr.1 = "" then (st, [])
      else
        match env.llm_completion with
        | none => (schedule_next_chat cfg env.now env.seed env.writeOk sid st, [])
        | some completion =>
          let response_text := pyStrip completion
          if need_text cfg env && env.text_send_fails then
            (schedule_next_chat cfg env.now env.seed env.writeOk sid st,
             voice_msgs env)
          else
            let text_msgs :=
              if need_text cfg env then [SentMsg.plain response_text] else []
            let d := updateSessionInfo st.session_data sid
              (fun s => { s with unanswered_count := some (unanswered_count + 1) })
            (schedule_next_chat cfg env.now env.seed env.writeOk sid
               { st with session_data := d },
             voice_msgs env ++ text_msgs)

/-- Embedding of `terminate`: shut the scheduler down and flush the
session data to the file (the write may fail and is caught). -/
def terminate (writeOk : Bool) (st : PState) : PState :=
  { st with file := save_session_data_to_file writeOk st.session_data st.file }

/-! ### Association-list lemmas about the dict and job-table operations -/

theorem getSessionInfo_setSessionInfo_same (d : SessionData) (sid : String)
    (v : SessionInfo) : getSessionInfo (setSessionInfo d sid v) sid = some v := by
  induction d with
  | nil => simp [setSessionInfo, getSessionInfo]
  | cons hd tl ih =>
    obtain ⟨k, w⟩ := hd
    by_cases hk : k = sid
    · simp [setSessionInfo, getSessionInfo, hk]
    · simp [setSessionInfo, getSessionInfo, hk, ih]

theorem getSessionInfo_setSessionInfo_ne (d : SessionData) (sid s2 : String)
    (v : SessionInfo) (h : s2 ≠ sid) :
    getSessionInfo (setSessionInfo d sid v) s2 = getSessionInfo d s2 := by
  have hsym : sid ≠ s2 := Ne.symm h
  induction d with
  | nil => simp [setSessionInfo, getSessionInfo, hsym]
  | cons hd tl ih =>
    obtain ⟨k, w⟩ := hd
    by_cases hk : k = sid
    · subst hk
      simp [setSessionInfo, getSessionInfo, hsym]
    · simp [setSessionInfo, getSessionInfo, hk, ih]

theorem mem_keys_setSessionInfo (d : SessionData) (sid a : String) (v : SessionInfo) :
    a ∈ (setSessionInfo d sid v).map Prod.fst ↔ a ∈ d.map Prod.fst ∨ a = sid := by
  induction d with
  | nil => simp [setSessionInfo]
  | cons hd tl ih =>
    obtain ⟨k, w⟩ := hd
    by_cases hk : k = sid
    · subst hk
      simp [setSessionInfo]
      tauto
    · simp [setSessionInfo, hk, ih]
      tauto

theorem nodup_keys_setSessionInfo (d : SessionData) (sid : String) (v : SessionInfo)
    (h : (d.map Prod.fst).Nodup) :
    ((setSessionInfo d sid v).map Prod.fst).Nodup := by
  induction d with
  | nil => simp [setSessionInfo]
  | cons hd tl ih =>
    obtain ⟨k, w⟩ := hd
    rw [List.map_cons, List.nodup_cons] at h
    by_cases hk : k = sid
    · subst hk
      have hset : setSessionInfo ((k, w) :: tl) k v = (k, v) :: tl := by
        simp [setSessionInfo]
      rw [hset, List.map_cons, List.nodup_cons]
      exact h
    · have hset : setSessionInfo ((k, w) :: tl) sid v =
          (k, w) :: setSessionInfo tl sid v := by
        simp [setSessionInfo, hk]
      rw [hset, List.map_cons, List.nodup_cons]
      refine ⟨?_, ih h.2⟩
      intro hmem
      rcases (mem_keys_setSessionInfo tl sid k v).mp hmem with hin | heq
      · exact h.1 hin
      · exact hk heq

theorem countP_key_eq_zero (d : SessionData) (sid : String)
    (h : sid ∉ d.map Prod.fst) :
    d.countP (fun p => p.1 == sid) = 0 := by
  rw [List.countP_eq_zero]
  intro a ha
  simp only [beq_iff_eq]
  intro heq
  exact h (by simpa [heq] using List.mem_map_of_mem Prod.fst ha)

theorem countP_setSessionInfo (d : SessionData) (sid : String) (v : SessionInfo)
    (h : (d.map Prod.fst).Nodup) :
    (setSessionInfo d sid v).countP (fun p => p.1 == sid) = 1 := by
  induction d with
  | nil => simp [setSessionInfo, List.countP_cons]
  | cons hd tl ih =>
    obtain ⟨k, w⟩ := hd
    rw [List.map_cons, List.nodup_cons] at h
    by_cases hk : k = sid
    · subst hk
      have hset : setSessionInfo ((k, w) :: tl) k v = (k, v) :: tl := by
        simp [setSessionInfo]
      rw [hset, List.countP_cons]
      simp [countP_key_eq_zero tl k h.1]
    · have hset : setSessionInfo ((k, w) :: tl) sid v =
          (k, w) :: setSessionInfo tl sid v := by
        simp [setSessionInfo, hk]
      rw [hset, List.countP_cons]
      simp [hk, ih h.2]

theorem lookupJob_filter_ne (js : Jobs) (sid : String) :
    lookupJob (js.filter (fun p => p.1 != sid)) sid = none := by
  induction js with
  | nil => simp [lookupJob]
  | cons hd tl ih =>
    obtain ⟨k, j⟩ := hd
    by_cases hk : k = sid
    · simp [List.filter_cons, hk, lookupJob, ih]
    · simp [List.filter_cons, hk, lookupJob, ih]

theorem lookupJob_add_job_same (js : Jobs) (sid : String) (j : Job) :
    lookupJob (add_job js sid j) sid = some j := by
  unfold add_job
  induction js with
  | nil => simp [lookupJob]
  | cons hd tl ih =>
    obtain ⟨k, j2⟩ := hd
    by_cases hk : k = sid
    · simp [List.filter_cons, hk, lookupJob, ih]
    · simp [List.filter_cons, hk, lookupJob, ih]

theorem lookupJob_add_job_ne (js : Jobs) (sid s2 : String) (j : Job) (h : s2 ≠ sid) :
    lookupJob (add_job js sid j) s2 = lookupJob js s2 := by
  have hsym : sid ≠ s2 := Ne.symm h
  unfold add_job
  induction js with
  | nil => simp [lookupJob, hsym]
  | cons hd tl ih =>
    obtain ⟨k, j2⟩ := hd
    by_cases hk : k = sid
    · subst hk
      simp [List.filter_cons, lookupJob, hsym, ih]
    · simp [List.filter_cons, hk, lookupJob, ih]

theorem countP_add_job (js : Jobs) (sid : String) (j : Job) :
    (add_job js sid j).countP (fun p => p.1 == sid) = 1 := by
  unfold add_job
  rw [List.countP_append]
  have h0 : (js.filter (fun p => p.1 != sid)).countP (fun p => p.1 == sid) = 0 := by
    rw [List.countP_eq_zero]
    intro a ha
    have := List.of_mem_filter ha
    simpa using this
  simp [h0, List.countP_cons]

/-! ### Characterization lemmas for the embedded operations -/

theorem randint_mem (lo hi : Int) (seed : Nat) (h : lo ≤ hi) :
    lo ≤ randint lo hi seed ∧ randint lo hi seed ≤ hi := by
  unfold randint
  have hpos : 0 < hi - lo + 1 := by omega
  have h1 : 0 ≤ (seed : Int) % (hi - lo + 1) := Int.emod_nonneg _ (by omega)
  have h2 : (seed : Int) % (hi - lo + 1) < hi - lo + 1 := Int.emod_lt_of_pos _ hpos
  omega

theorem getSessionInfo_schedule_next_chat (cfg : Config) (now : Int) (seed : Nat)
    (writeOk : Bool) (sid : String) (st : PState) (s2 : String) :
    getSessionInfo (schedule_next_chat cfg now seed writeOk sid st).session_data s2 =
      if s2 = sid
      then some { (getSessionInfo st.session_data sid).getD {} with
                  next_trigger_time := some (now + random_interval cfg seed) }
      else getSessionInfo st.session_data s2 := by
  unfold schedule_next_chat updateSessionInfo
  by_cases h : s2 = sid
  · subst h
    simp [getSessionInfo_setSessionInfo_same]
  · simp [h, getSessionInfo_setSessionInfo_ne _ _ _ _ h]

theorem ucOpt_schedule_next_chat (cfg : Config) (now : Int) (seed : Nat)
    (writeOk : Bool) (sid : String) (st : PState) (s2 : String) :
    ucOpt (schedule_next_chat cfg now seed writeOk sid st) s2 = ucOpt st s2 := by
  unfold ucOpt
  rw [getSessionInfo_schedule_next_chat]
  by_cases h : s2 = sid
  · subst h
    simp
  · simp [h]

theorem check_and_chat_gated (cfg : Config) (env : FireEnv) (sid : String)
    (st : PState)
    (h : cfg.basic_settings.enable = false
      ∨ is_quiet_time cfg.schedule_settings.quiet_hours env.hour = true) :
    check_and_chat cfg env sid st =
      (schedule_next_chat cfg env.now env.seed env.writeOk sid st, []) := by
  unfold check_and_chat
  rcases h with h | h
  · simp [h]
  · simp [h]

theorem check_and_chat_no_provider (cfg : Config) (env : FireEnv) (sid : String)
    (st : PState)
    (hen : cfg.basic_settings.enable = true)
    (hq : is_quiet_time cfg.schedule_settings.quiet_hours env.hour = false)
    (hp : env.provider_available = false) :
    check_and_chat cfg env sid st =
      (schedule_next_chat cfg env.now env.seed env.writeOk sid st, []) := by
  unfold check_and_chat
  simp [hen, hq, hp]

theorem check_and_chat_llm_fail (cfg : Config) (env : FireEnv) (sid : String)
    (st : PState)
    (hen : cfg.basic_settings.enable = true)
    (hq : is_quiet_time cfg.schedule_settings.quiet_hours env.hour = false)
    (hp : env.provider_available = true)
    (hpr : (resolve_persona_and_history env).1 ≠ "")
    (hllm : env.llm_completion = none) :
    check_and_chat cfg env sid st =
      (schedule_next_chat cfg env.now env.seed env.writeOk sid st, []) := by
  unfold check_and_chat
  simp [hen, hq, hp, hpr, hllm]

theorem check_and_chat_send_fails (cfg : Config) (env : FireEnv) (sid : String)
    (st : PState) (c : String)
    (hen : cfg.basic_settings.enable = true)
    (hq : is_quiet_time cfg.schedule_settings.quiet_hours env.hour = false)
    (hp : env.provider_available = true)
    (hpr : (resolve_persona_and_history env).1 ≠ "")
    (hllm : env.llm_completion = some c)
    (hsend : (need_text cfg env && env.text_send_fails) = true) :
    check_and_chat cfg env sid st =
      (schedule_next_chat cfg env.now env.seed env.writeOk sid st, voice_msgs env) := by
  unfold check_and_chat
  simp [hen, hq, hp, hpr, hllm, hsend]

theorem check_and_chat_success (cfg : Config) (env : FireEnv) (sid : String)
    (st : PState) (c : String)
    (hen : cfg.basic_settings.enable = true)
    (hq : is_quiet_time cfg.schedule_settings.quiet_hours env.hour = false)
    (hp : env.provider_available = true)
    (hpr : (resolve_persona_and_history env).1 ≠ "")
    (hllm : env.llm_completion = some c)
    (hsend : (need_text cfg env && env.text_send_fails) = false) :
    check_and_chat cfg env sid st =
      (schedule_next_chat cfg env.now env.seed env.writeOk sid
         { st with
           session_data := updateSessionInfo st.session_data sid
             (fun s => { s with
               unanswered_count := some ((ucOpt st sid).getD 0 + 1) }) },
       voice_msgs env
         ++ if need_text cfg env then [SentMsg.plain (pyStrip c)] else []) := by
  unfold check_and_chat
  simp [hen, hq, hp, hpr, hllm, hsend, ucOpt]

theorem lookupJob_init_jobs_aux_not_mem (t : String) (n : Int) (sid : String) :
    ∀ (l : SessionData) (js : Jobs), sid ∉ l.map Prod.fst →
    lookupJob (init_jobs_aux t n l js) sid = lookupJob js sid := by
  intro l
  induction l with
  | nil => intro js _; rfl
  | cons hd tl ih =>
    intro js h
    obtain ⟨k, info⟩ := hd
    have hk : sid ≠ k := fun hh => h (by simp [hh])
    have htl : sid ∉ tl.map Prod.fst := fun hh => h (by simp [hh])
    simp only [init_jobs_aux]
    rw [ih _ htl]
    by_cases hc1 : (strContains k (":" ++ t) && strContains k "private") = true
    · by_cases hc2 : n < info.next_trigger_time.getD 0
      · rw [if_pos hc1, if_pos hc2]
        exact lookupJob_add_job_ne _ _ _ _ hk
      · rw [if_pos hc1, if_neg hc2]
    · rw [if_neg hc1]

theorem lookupJob_init_jobs_aux (t : String) (n : Int) (sid : String)
    (info : SessionInfo) :
    ∀ (l : SessionData) (js : Jobs),
    (l.map Prod.fst).Nodup → (sid, info) ∈ l →
    lookupJob (init_jobs_aux t n l js) sid =
      (if (strContains sid (":" ++ t) && strContains sid "private") = true
          ∧ n < info.next_trigger_time.getD 0
       then some { run_date := info.next_trigger_time.getD 0, misfire_grace_time := 60 }
       else lookupJob js sid) := by
  intro l
  induction l with
  | nil => intro js _ hmem; cases hmem
  | cons hd tl ih =>
    intro js hnd hmem
    obtain ⟨k, i2⟩ := hd
    rw [List.map_cons, List.nodup_cons] at hnd
    rcases List.mem_cons.mp hmem with heq | hmemtl
    · injection heq with h1 h2
      subst h1
      subst h2
      simp only [init_jobs_aux]
      rw [lookupJob_init_jobs_aux_not_mem t n sid tl _ hnd.1]
      by_cases hc1 : (strContains sid (":" ++ t) && strContains sid "private") = true
      · by_cases hc2 : n < info.next_trigger_time.getD 0
        · rw [if_pos hc1, if_pos hc2, if_pos ⟨hc1, hc2⟩]
          exact lookupJob_add_job_same _ _ _
        · rw [if_pos hc1, if_neg hc2, if_neg (fun hh => hc2 hh.2)]
      · rw [if_neg hc1, if_neg (fun hh => hc1 hh.1)]
    · have hsid : sid ∈ tl.map Prod.fst := by
        simpa using List.mem_map_of_mem Prod.fst hmemtl
      have hk : sid ≠ k := fun hh => hnd.1 (hh ▸ hsid)
      simp only [init_jobs_aux]
      rw [ih _ hnd.2 hmemtl]
      by_cases hc1 : (strContains k (":" ++ t) && strContains k "private") = true
      · by_cases hc2 : n < i2.next_trigger_time.getD 0
        · rw [if_pos hc1, if_pos hc2, lookupJob_add_job_ne _ _ _ _ hk]
        · rw [if_pos hc1, if_neg hc2]
      · rw [if_neg hc1]

theorem on_private_message_active (cfg : Config) (sender umo : String) (now : Int)
    (seed : Nat) (writeOk : Bool) (st : PState)
    (hen : cfg.basic_settings.enable = true)
    (htgt : pyStrip cfg.basic_settings.target_user_id ≠ "")
    (hsend : sender = pyStrip cfg.basic_settings.target_user_id) :
    on_private_message cfg sender umo now seed writeOk st =
      schedule_next_chat cfg now seed writeOk umo
        { st with
          session_data := updateSessionInfo
            (updateSessionInfo st.session_data umo
              (fun s => { s with unanswered_count := some 0 }))
            umo (fun s => { s with last_msg_time := some now }) } := by
  unfold on_private_message
  have hb : (sender != pyStrip cfg.basic_settings.target_user_id) = false := by
    simp [hsend]
  simp [hen, htgt, hb]

/-! ### Concrete fixtures for the closed instances below -/

/-- Concrete configuration: enabled, monitoring user "123", intervals 30
to 90 minutes, quiet hours 1-7. -/
def cfgW : Config :=
  { basic_settings := { enable := true, target_user_id := "123" }
    schedule_settings :=
      { min_interval_minutes := 30, max_interval_minutes := 90, quiet_hours := "1-7" }
    tts_settings := { always_send_text := true } }

/-- Concrete firing environment: daytime hour, provider present, global
default persona resolvable, LLM answers, no TTS audio, sends succeed,
file writes succeed. -/
def envW : FireEnv :=
  { now := 1000, hour := 12, seed := 5, writeOk := true
    provider_available := true, ctx_fails := false, conv_history := []
    conv_persona_prompt := none, default_persona_prompt := some "you are a cat"
    llm_completion := some "hi", tts_audio_path := none
    tts_flow_fails := false, text_send_fails := false }

/-- Concrete firing environment in which no persona resolves: neither a
conversation-bound persona nor a global default is available. -/
def envNoPersonaW : FireEnv :=
  { envW with default_persona_prompt := none }

/-- Concrete starting state with one session of the monitored user. -/
def stW : PState :=
  { session_data := [("qq:private:123", { next_trigger_time := some 500 })]
    jobs := []
    file := none }

/-! ### The claims -/

/-- C3: `is_quiet_time`, for a string that splits on the dash into two
integer parts H1 and H2, returns for the current hour exactly the claimed
predicate: `H1 ≤ hour < H2` when `H1 ≤ H2` and `hour ≥ H1 ∨ hour < H2`
when `H1 > H2`; on every malformed string (not exactly two dash-separated
parts, or a non-numeric part) it returns false; in particular for "9-17"
hours 9..16 are quiet and 8 and 17 are not, and for "23-7" hours 23 and
0..6 are quiet and 7 and 22 are not. -/
theorem is_quiet_time_spec :
    (∀ (s a b : String) (H1 H2 : Int) (h : Nat),
        (splitOnChar '-' s.data).map (fun cs => String.mk cs) = [a, b] →
        pyInt a = some H1 → pyInt b = some H2 →
        is_quiet_time s h =
          (if H1 ≤ H2 then decide (H1 ≤ (h : Int) ∧ (h : Int) < H2)
           else decide ((h : Int) ≥ H1 ∨ (h : Int) < H2)))
    ∧ (∀ (s : String) (h : Nat),
        (∀ a b, (splitOnChar '-' s.data).map (fun cs => String.mk cs) ≠ [a, b]) →
        is_quiet_time s h = false)
    ∧ (∀ (s a b : String) (h : Nat),
        (splitOnChar '-' s.data).map (fun cs => String.mk cs) = [a, b] →
        pyInt a = none ∨ pyInt b = none →
        is_quiet_time s h = false)
    ∧ (∀ h : Fin 24,
        is_quiet_time "9-17" (h : Nat) = decide (9 ≤ (h : Nat) ∧ (h : Nat) < 17))
    ∧ (∀ h : Fin 24,
        is_quiet_time "23-7" (h : Nat) = decide ((h : Nat) ≥ 23 ∨ (h : Nat) < 7))
    ∧ (∀ h : Nat, is_quiet_time "abc" h = false)
    ∧ (∀ h : Nat, is_quiet_time "917" h = false) := by
  refine ⟨?_, ?_, ?_, by decide, by decide, fun _ => rfl, fun _ => rfl⟩
  · intro s a b H1 H2 h hsplit hpa hpb
    unfold is_quiet_time
    simp only [hsplit, hpa, hpb]
  · intro s h hno
    unfold is_quiet_time
    rcases hl : (splitOnChar '-' s.data).map (fun cs => String.mk cs)
      with _ | ⟨a, _ | ⟨b, _ | ⟨c, t⟩⟩⟩
    · rfl
    · rfl
    · exact absurd hl (hno a b)
    · rfl
  · intro s a b h hsplit hp
    unfold is_quiet_time
    rw [hsplit]
    rcases hp with hp | hp
    · rcases hqb : pyInt b with _ | v
      · simp only [hp, hqb]
      · simp only [hp, hqb]
    · rcases hqa : pyInt a with _ | v
      · simp only [hqa, hp]
      · simp only [hqa, hp]

/-- Witness for C3: the general clause evaluated at "9-17" and hour 10. -/
theorem is_quiet_time_spec_witness :
    is_quiet_time "9-17" 10 =
      (if (9 : Int) ≤ 17
       then decide ((9 : Int) ≤ ((10 : Nat) : Int) ∧ ((10 : Nat) : Int) < 17)
       else decide (((10 : Nat) : Int) ≥ 9 ∨ ((10 : Nat) : Int) < 17)) :=
  is_quiet_time_spec.1 "9-17" "9" "17" 9 17 10 (by decide) (by decide) (by decide)

/-- C8: loading the persisted session store is fail-open: a missing file
and an unparseable file both load as the empty mapping, and a parseable
file loads as its parsed mapping. -/
theorem load_session_data_fail_open :
    load_session_data_from_file none = []
    ∧ load_session_data_from_file (some none) = []
    ∧ ∀ d : SessionData, load_session_data_from_file (some (some d)) = d :=
  ⟨rfl, rfl, fun _ => rfl⟩

/-- C4: `_schedule_next_chat` computes min = min_interval_minutes * 60 and
an effective max = max(min, max_interval_minutes * 60) (a configured max
below min is clamped up to min), draws an interval within those bounds
inclusive, sets the session's next trigger time to now + interval,
persists it, and registers the job at the same value; the trigger time t
satisfies t - now within the clamped bounds, and t ≥ now whenever the
configured minimum is nonnegative. -/
theorem schedule_next_chat_spec (cfg : Config) (now : Int) (seed : Nat)
    (writeOk : Bool) (sid : String) (st : PState) :
    min_interval cfg = cfg.schedule_settings.min_interval_minutes * 60
    ∧ max_interval cfg =
        max (min_interval cfg) (cfg.schedule_settings.max_interval_minutes * 60)
    ∧ min_interval cfg ≤ max_interval cfg
    ∧ min_interval cfg ≤ random_interval cfg seed
    ∧ random_interval cfg seed ≤ max_interval cfg
    ∧ ((getSessionInfo (schedule_next_chat cfg now seed writeOk sid st).session_data
          sid).getD {}).next_trigger_time = some (now + random_interval cfg seed)
    ∧ lookupJob (schedule_next_chat cfg now seed writeOk sid st).jobs sid =
        some { run_date := now + random_interval cfg seed, misfire_grace_time := 60 }
    ∧ (writeOk = true →
        (schedule_next_chat cfg now seed writeOk sid st).file =
          some (some (schedule_next_chat cfg now seed writeOk sid st).session_data))
    ∧ (now + random_interval cfg seed) - now = random_interval cfg seed
    ∧ (0 ≤ min_interval cfg → now ≤ now + random_interval cfg seed) := by
  have hle : min_interval cfg ≤ max_interval cfg := le_max_left _ _
  have hr := randint_mem (min_interval cfg) (max_interval cfg) seed hle
  have hr1 := hr.1
  refine ⟨rfl, rfl, hle, hr.1, hr.2, ?_, ?_, ?_, by omega, ?_⟩
  · rw [getSessionInfo_schedule_next_chat]
    simp
  · simp only [schedule_next_chat]
    exact lookupJob_add_job_same _ _ _
  · intro hw
    simp [schedule_next_chat, save_session_data_to_file, hw]
  · intro hmin
    have hreq : random_interval cfg seed =
        randint (min_interval cfg) (max_interval cfg) seed := rfl
    omega

/-- Witness for C4: the persistence and monotonicity clauses at a concrete
configuration and state. -/
theorem schedule_next_chat_spec_witness :
    (schedule_next_chat cfgW 1000 5 true "qq:private:123" stW).file =
      some (some (schedule_next_chat cfgW 1000 5 true "qq:private:123" stW).session_data)
    ∧ (1000 : Int) ≤ 1000 + random_interval cfgW 5 :=
  ⟨(schedule_next_chat_spec cfgW 1000 5 true "qq:private:123" stW).2.2.2.2.2.2.2.1 rfl,
   (schedule_next_chat_spec cfgW 1000 5 true "qq:private:123" stW).2.2.2.2.2.2.2.2.2
     (by decide)⟩

/-- C7: scheduling twice in succession for the same session identifier
leaves exactly one registered job for that identifier, holding the second
call's run date, and exactly one persisted session entry for the
identifier whose `next_trigger_time` is the second call's value. -/
theorem schedule_idempotent (cfg : Config) (n1 n2 : Int) (s1 s2 : Nat)
    (w1 w2 : Bool) (sid : String) (st : PState)
    (hnd : (st.session_data.map Prod.fst).Nodup) :
    lookupJob (schedule_next_chat cfg n2 s2 w2 sid
        (schedule_next_chat cfg n1 s1 w1 sid st)).jobs sid =
      some { run_date := n2 + random_interval cfg s2, misfire_grace_time := 60 }
    ∧ (schedule_next_chat cfg n2 s2 w2 sid
        (schedule_next_chat cfg n1 s1 w1 sid st)).jobs.countP
          (fun p => p.1 == sid) = 1
    ∧ ((getSessionInfo (schedule_next_chat cfg n2 s2 w2 sid
        (schedule_next_chat cfg n1 s1 w1 sid st)).session_data sid).getD
          {}).next_trigger_time = some (n2 + random_interval cfg s2)
    ∧ (schedule_next_chat cfg n2 s2 w2 sid
        (schedule_next_chat cfg n1 s1 w1 sid st)).session_data.countP
          (fun p => p.1 == sid) = 1 := by
  refine ⟨?_, ?_, ?_, ?_⟩
  · simp only [schedule_next_chat]
    exact lookupJob_add_job_same _ _ _
  · simp only [schedule_next_chat]
    exact countP_add_job _ _ _
  · rw [getSessionInfo_schedule_next_chat]
    simp
  · simp only [schedule_next_chat, updateSessionInfo]
    apply countP_setSessionInfo
    apply nodup_keys_setSessionInfo
    exact hnd

/-- Witness for C7: the second call's job is the unique one at a concrete
configuration and state. -/
theorem schedule_idempotent_witness :
    lookupJob (schedule_next_chat cfgW 2000 7 true "qq:private:123"
        (schedule_next_chat cfgW 1000 5 true "qq:private:123" stW)).jobs
        "qq:private:123" =
      some { run_date := 2000 + random_interval cfgW 7, misfire_grace_time := 60 } :=
  (schedule_idempotent cfgW 1000 2000 5 7 true true "qq:private:123" stW (by decide)).1

/-- C5: an inbound private message is ignored (state returned unchanged,
nothing scheduled) when the plugin is disabled, the stripped target user
id is empty, or the sender differs from the target; otherwise the
session's `unanswered_count` is reset to 0 regardless of its prior value,
`last_msg_time` is set to the current time, and a freshly computed trigger
is registered under the session id, replacing any previous job. -/
theorem on_private_message_spec (cfg : Config) (sender umo : String) (now : Int)
    (seed : Nat) (writeOk : Bool) (st : PState) :
    (cfg.basic_settings.enable = false →
        on_private_message cfg sender umo now seed writeOk st = st)
    ∧ (pyStrip cfg.basic_settings.target_user_id = "" →
        on_private_message cfg sender umo now seed writeOk st = st)
    ∧ (sender ≠ pyStrip cfg.basic_settings.target_user_id →
        on_private_message cfg sender umo now seed writeOk st = st)
    ∧ (cfg.basic_settings.enable = true →
       pyStrip cfg.basic_settings.target_user_id ≠ "" →
       sender = pyStrip cfg.basic_settings.target_user_id →
        ucOpt (on_private_message cfg sender umo now seed writeOk st) umo = some 0
        ∧ ((getSessionInfo (on_private_message cfg sender umo now seed writeOk
              st).session_data umo).getD {}).last_msg_time = some now
        ∧ lookupJob (on_private_message cfg sender umo now seed writeOk st).jobs umo =
            some { run_date := now + random_interval cfg seed, misfire_grace_time := 60 }
        ∧ (on_private_message cfg sender umo now seed writeOk st).jobs.countP
            (fun p => p.1 == umo) = 1) := by
  refine ⟨?_, ?_, ?_, ?_⟩
  · intro h
    unfold on_private_message
    simp [h]
  · intro h
    unfold on_private_message
    by_cases hen : cfg.basic_settings.enable
    · simp [hen, h]
    · simp [hen]
  · intro h
    unfold on_private_message
    by_cases hen : cfg.basic_settings.enable
    · have hb : (sender != pyStrip cfg.basic_settings.target_user_id) = true :=
        bne_iff_ne.mpr h
      simp [hen, hb]
    · simp [hen]
  · intro hen htgt hsend
    rw [on_private_message_active cfg sender umo now seed writeOk st hen htgt hsend]
    refine ⟨?_, ?_, ?_, ?_⟩
    · rw [ucOpt_schedule_next_chat]
      unfold ucOpt updateSessionInfo
      simp [getSessionInfo_setSessionInfo_same]
    · rw [getSessionInfo_schedule_next_chat]
      simp [updateSessionInfo, getSessionInfo_setSessionInfo_same]
    · simp only [schedule_next_chat]
      exact lookupJob_add_job_same _ _ _
    · simp only [schedule_next_chat]
      exact countP_add_job _ _ _

/-- Witness for C5: the active clause at a concrete inbound message from
the monitored user. -/
theorem on_private_message_spec_witness :
    ucOpt (on_private_message cfgW "123" "qq:private:123" 2000 3 true stW)
      "qq:private:123" = some 0 :=
  ((on_private_message_spec cfgW "123" "qq:private:123" 2000 3 true stW).2.2.2
    rfl (by decide) (by decide)).1

/-- C6: on initialization, a persisted session of the monitored user (its
identifier contains ":" ++ target and "private") whose `next_trigger_time`
is strictly in the future is re-registered to fire at exactly that time
with a 60-second misfire grace window; one whose trigger time is not in
the future (a missing field defaults to 0) is not re-registered. -/
theorem init_jobs_recovery_spec (cfg : Config) (now : Int) (st : PState)
    (sid : String) (info : SessionInfo)
    (hnd : (st.session_data.map Prod.fst).Nodup)
    (hmem : (sid, info) ∈ st.session_data)
    (htgt : pyStrip cfg.basic_settings.target_user_id ≠ "")
    (hmatch : (strContains sid (":" ++ pyStrip cfg.basic_settings.target_user_id)
        && strContains sid "private") = true) :
    lookupJob (init_jobs_from_data cfg now st) sid =
      (if now < info.next_trigger_time.getD 0
       then some { run_date := info.next_trigger_time.getD 0, misfire_grace_time := 60 }
       else lookupJob st.jobs sid) := by
  simp only [init_jobs_from_data]
  rw [if_neg htgt]
  rw [lookupJob_init_jobs_aux _ _ _ info st.session_data st.jobs hnd hmem]
  by_cases hc2 : now < info.next_trigger_time.getD 0
  · rw [if_pos ⟨hmatch, hc2⟩, if_pos hc2]
  · rw [if_neg (fun hh => hc2 hh.2), if_neg hc2]

/-- Witness for C6: a future-trigger session of the monitored user is
recovered at its persisted time. -/
theorem init_jobs_recovery_spec_witness :
    lookupJob (init_jobs_from_data cfgW 0 stW) "qq:private:123" =
      some { run_date := 500, misfire_grace_time := 60 } :=
  init_jobs_recovery_spec cfgW 0 stW "qq:private:123"
    { next_trigger_time := some 500 } (by decide) (by decide) (by decide) (by decide)

/-- C9: job recovery selects sessions by substring containment rather than
exact user identity: a persisted session is re-registered exactly when its
identifier contains ":" ++ target and "private" and its trigger time is in
the future; in particular, with target "123", the session
"qq:private:1234" of the different user "1234" is also recovered. -/
theorem init_jobs_substring_matching :
    (∀ (cfg : Config) (now : Int) (st : PState) (sid : String) (info : SessionInfo),
        (st.session_data.map Prod.fst).Nodup →
        (sid, info) ∈ st.session_data →
        pyStrip cfg.basic_settings.target_user_id ≠ "" →
        lookupJob (init_jobs_from_data cfg now st) sid =
          (if (strContains sid (":" ++ pyStrip cfg.basic_settings.target_user_id)
                && strContains sid "private") = true
              ∧ now < info.next_trigger_time.getD 0
           then some { run_date := info.next_trigger_time.getD 0, misfire_grace_time := 60 }
           else lookupJob st.jobs sid))
    ∧ lookupJob (init_jobs_from_data cfgW 0
        { session_data := [("qq:private:1234", { next_trigger_time := some 100 })]
          jobs := [], file := none }) "qq:private:1234" =
        some { run_date := 100, misfire_grace_time := 60 }
    ∧ ("1234" : String) ≠ pyStrip cfgW.basic_settings.target_user_id := by
  refine ⟨?_, by decide, by decide⟩
  intro cfg now st sid info hnd hmem htgt
  simp only [init_jobs_from_data]
  rw [if_neg htgt]
  exact lookupJob_init_jobs_aux _ _ _ info st.session_data st.jobs hnd hmem

/-- Witness for C9: the general clause at a concrete state. -/
theorem init_jobs_substring_matching_witness :
    lookupJob (init_jobs_from_data cfgW 0 stW) "qq:private:123" =
      some { run_date := 500, misfire_grace_time := 60 } :=
  init_jobs_substring_matching.1 cfgW 0 stW "qq:private:123"
    { next_trigger_time := some 500 } (by decide) (by decide) (by decide)

/-- C2: a firing that is gated off (disabled or quiet hours), or finds no
LLM provider, or whose LLM call fails or returns an empty completion,
leaves every session's stored `unanswered_count` unchanged; a firing that
produces and sends a message stores the value read at the start of the
firing plus exactly one and persists the new mapping to the data file. -/
theorem unanswered_count_semantics (cfg : Config) (env : FireEnv) (sid : String)
    (st : PState) (c : String) :
    (cfg.basic_settings.enable = false
        ∨ is_quiet_time cfg.schedule_settings.quiet_hours env.hour = true →
      ∀ s2, ucOpt (check_and_chat cfg env sid st).1 s2 = ucOpt st s2)
    ∧ (cfg.basic_settings.enable = true →
       is_quiet_time cfg.schedule_settings.quiet_hours env.hour = false →
       env.provider_available = false →
      ∀ s2, ucOpt (check_and_chat cfg env sid st).1 s2 = ucOpt st s2)
    ∧ (cfg.basic_settings.enable = true →
       is_quiet_time cfg.schedule_settings.quiet_hours env.hour = false →
       env.provider_available = true →
       (resolve_persona_and_history env).1 ≠ "" →
       env.llm_completion = none →
      ∀ s2, ucOpt (check_and_chat cfg env sid st).1 s2 = ucOpt st s2)
    ∧ (cfg.basic_settings.enable = true →
       is_quiet_time cfg.schedule_settings.quiet_hours env.hour = false →
       env.provider_available = true →
       (resolve_persona_and_history env).1 ≠ "" →
       env.llm_completion = some c →
       (need_text cfg env && env.text_send_fails) = false →
        ucOpt (check_and_chat cfg env sid st).1 sid = some ((ucOpt st sid).getD 0 + 1)
        ∧ (env.writeOk = true →
            (check_and_chat cfg env sid st).1.file =
              some (some (check_and_chat cfg env sid st).1.session_data))
        ∧ (check_and_chat cfg env sid st).2 ≠ []) := by
  refine ⟨?_, ?_, ?_, ?_⟩
  · intro h s2
    rw [check_and_chat_gated cfg env sid st h]
    exact ucOpt_schedule_next_chat _ _ _ _ _ _ _
  · intro hen hq hp s2
    rw [check_and_chat_no_provider cfg env sid st hen hq hp]
    exact ucOpt_schedule_next_chat _ _ _ _ _ _ _
  · intro hen hq hp hpr hllm s2
    rw [check_and_chat_llm_fail cfg env sid st hen hq hp hpr hllm]
    exact ucOpt_schedule_next_chat _ _ _ _ _ _ _
  · intro hen hq hp hpr hllm hsend
    have h1 : (check_and_chat cfg env sid st).1 =
        schedule_next_chat cfg env.now env.seed env.writeOk sid
          { st with
            session_data := updateSessionInfo st.session_data sid
              (fun s => { s with
                unanswered_count := some ((ucOpt st sid).getD 0 + 1) }) } := by
      rw [check_and_chat_success cfg env sid st c hen hq hp hpr hllm hsend]
    have h2 : (check_and_chat cfg env sid st).2 =
        voice_msgs env
          ++ (if need_text cfg env then [SentMsg.plain (pyStrip c)] else []) := by
      rw [check_and_chat_success cfg env sid st c hen hq hp hpr hllm hsend]
    refine ⟨?_, ?_, ?_⟩
    · rw [h1, ucOpt_schedule_next_chat]
      unfold ucOpt updateSessionInfo
      simp [getSessionInfo_setSessionInfo_same]
    · intro hw
      rw [h1]
      simp [schedule_next_chat, save_session_data_to_file, hw]
    · rw [h2]
      by_cases hn : need_text cfg env = true
      · simp [hn]
      · have hnf : need_text cfg env = false := by
          cases hx : need_text cfg env
          · rfl
          · exact absurd hx hn
        have hts : is_tts_sent env = true := by
          unfold need_text at hnf
          cases hx : is_tts_sent env
          · rw [hx] at hnf
            simp at hnf
          · rfl
        have hff : env.tts_flow_fails = false := by
          unfold is_tts_sent at hts
          cases hx : env.tts_flow_fails
          · rfl
          · rw [hx] at hts
            simp at hts
        have hpath : ∃ p, env.tts_audio_path = some p := by
          unfold is_tts_sent at hts
          cases hx : env.tts_audio_path
          · rw [hx] at hts
            simp at hts
          · exact ⟨_, rfl⟩
        obtain ⟨p, hp2⟩ := hpath
        simp [voice_msgs, hp2, hff, hnf]

/-- Witness for C2: the success clause at a concrete firing increments the
counter stored for the session. -/
theorem unanswered_count_semantics_witness :
    ucOpt (check_and_chat cfgW envW "qq:private:123" stW).1 "qq:private:123" =
      some ((ucOpt stW "qq:private:123").getD 0 + 1) :=
  ((unanswered_count_semantics cfgW envW "qq:private:123" stW "hi").2.2.2
    rfl (by decide) rfl (by decide) rfl (by decide)).1

/-- C1 counterexample: a concrete firing in which the gate passes and a
provider is available but no persona resolves. The firing returns the
state unchanged and sends nothing: no job is registered for the session
and the persisted `next_trigger_time` keeps its old value 500, so no new
random trigger time is computed, persisted, or re-registered — the firing
path does end without rescheduling. -/
theorem no_persona_not_rescheduled_cex :
    check_and_chat cfgW envNoPersonaW "qq:private:123" stW = (stW, [])
    ∧ lookupJob (check_and_chat cfgW envNoPersonaW "qq:private:123" stW).1.jobs
        "qq:private:123" = none
    ∧ ((getSessionInfo (check_and_chat cfgW envNoPersonaW "qq:private:123"
          stW).1.session_data "qq:private:123").getD {}).next_trigger_time = some 500
    ∧ (check_and_chat cfgW envNoPersonaW "qq:private:123" stW).1.file = stW.file
    ∧ cfgW.basic_settings.enable = true
    ∧ is_quiet_time cfgW.schedule_settings.quiet_hours envNoPersonaW.hour = false
    ∧ envNoPersonaW.provider_available = true
    ∧ (resolve_persona_and_history envNoPersonaW).1 = "" := by
  decide

/-- C1 (amended): for every firing of `check_and_chat` in which the gate
passes and a provider is found but no persona can be resolved (neither a
session-bound persona nor the global default yields a non-empty system
prompt), no message is sent and NO rescheduling happens: the firing
returns with the session data, the job table, and the data file all
unchanged, leaving the session without a pending job until the next
inbound message. -/
theorem no_persona_abandons_without_reschedule (cfg : Config) (env : FireEnv)
    (sid : String) (st : PState)
    (hen : cfg.basic_settings.enable = true)
    (hq : is_quiet_time cfg.schedule_settings.quiet_hours env.hour = false)
    (hp : env.provider_available = true)
    (hpr : (resolve_persona_and_history env).1 = "") :
    check_and_chat cfg env sid st = (st, []) := by
  unfold check_and_chat
  simp [hen, hq, hp, hpr]

/-- Witness for the amended C1 at the concrete no-persona firing. -/
theorem no_persona_abandons_without_reschedule_witness :
    check_and_chat cfgW envNoPersonaW "qq:private:123" stW = (stW, []) :=
  no_persona_abandons_without_reschedule cfgW envNoPersonaW "qq:private:123" stW
    rfl (by decide) rfl (by decide)

/-- C10: persisting the session store never raises: `save_session_data_to_file`
is total — a failed write leaves the file exactly as it was — and every
state-mutating entry point completes with its in-memory updates intact
even when the file cannot be written: the inbound handler still resets the
counter, a successful firing still increments it, and termination still
returns (flushing only when the write succeeds). -/
theorem save_failure_is_contained (cfg : Config) (sender umo sid : String)
    (now : Int) (seed : Nat) (st : PState) (env : FireEnv) (c : String) :
    (∀ (writeOk : Bool) (data : SessionData) (fs : FileState),
        save_session_data_to_file writeOk data fs =
          if writeOk then some (some data) else fs)
    ∧ (cfg.basic_settings.enable = true →
       pyStrip cfg.basic_settings.target_user_id ≠ "" →
       sender = pyStrip cfg.basic_settings.target_user_id →
        (on_private_message cfg sender umo now seed false st).file = st.file
        ∧ ucOpt (on_private_message cfg sender umo now seed false st) umo = some 0)
    ∧ (cfg.basic_settings.enable = true →
       is_quiet_time cfg.schedule_settings.quiet_hours env.hour = false →
       env.provider_available = true →
       (resolve_persona_and_history env).1 ≠ "" →
       env.llm_completion = some c →
       (need_text cfg env && env.text_send_fails) = false →
       env.writeOk = false →
        (check_and_chat cfg env sid st).1.file = st.file
        ∧ ucOpt (check_and_chat cfg env sid st).1 sid =
            some ((ucOpt st sid).getD 0 + 1))
    ∧ terminate false st = st
    ∧ terminate true st = { st with file := some (some st.session_data) } := by
  refine ⟨fun _ _ _ => rfl, ?_, ?_, rfl, rfl⟩
  · intro hen htgt hsend
    rw [on_private_message_active cfg sender umo now seed false st hen htgt hsend]
    constructor
    · simp [schedule_next_chat, save_session_data_to_file]
    · rw [ucOpt_schedule_next_chat]
      unfold ucOpt updateSessionInfo
      simp [getSessionInfo_setSessionInfo_same]
  · intro hen hq hp hpr hllm hsend hw
    have h1 : (check_and_chat cfg env sid st).1 =
        schedule_next_chat cfg env.now env.seed env.writeOk sid
          { st with
            session_data := updateSessionInfo st.session_data sid
              (fun s => { s with
                unanswered_count := some ((ucOpt st sid).getD 0 + 1) }) } := by
      rw [check_and_chat_success cfg env sid st c hen hq hp hpr hllm hsend]
    constructor
    · rw [h1]
      simp [schedule_next_chat, save_session_data_to_file, hw]
    · rw [h1, ucOpt_schedule_next_chat]
      unfold ucOpt updateSessionInfo
      simp [getSessionInfo_setSessionInfo_same]

/-- Witness for C10: a failed write during inbound handling leaves the
file untouched while the counter reset took effect. -/
theorem save_failure_is_contained_witness :
    (on_private_message cfgW "123" "qq:private:123" 2000 3 false stW).file = stW.file
    ∧ ucOpt (on_private_message cfgW "123" "qq:private:123" 2000 3 false stW)
        "qq:private:123" = some 0 :=
  (save_failure_is_contained cfgW "123" "qq:private:123" "qq:private:123" 2000 3 stW
    envW "hi").2.1 rfl (by decide) (by decide)
